import Mathlib

/-
Verification of the conversation logic of the render-flask repository
(src/app.py and src/bot.py) against its natural-language specification.
The two files implement the same handler logic; app.py keeps the pending
prompt in a process-wide module dictionary called user_data, while bot.py
keeps it in the per-user context storage of the framework.
-/

/-- A quality preset record, as built in the quality_params dictionaries of
app.py (module level, lines 28-53) and bot.py (constructor, lines 35-60). -/
structure QualityPreset where
  model : String
  width : Nat
  height : Nat
  steps : Nat
  n : Nat
  response_format : String
deriving Repr, DecidableEq

/-- The quality_params lookup table: three fixed presets keyed by tag.
A missing key raises KeyError in Python, modelled as none. -/
def quality_params : String → Option QualityPreset
  | "low" => some ⟨"black-forest-labs/FLUX.1-dev", 512, 384, 20, 1, "b64_json"⟩
  | "mid" => some ⟨"black-forest-labs/FLUX.1-dev", 768, 576, 24, 1, "b64_json"⟩
  | "high" => some ⟨"black-forest-labs/FLUX.1-dev", 1024, 768, 28, 1, "b64_json"⟩
  | _ => none

/-- The shared prompt slot of app.py: the current_prompt entry of the
module-level user_data dictionary, or none when nothing was ever stored. -/
abbrev PromptSlot := Option String

/-- Storing a prompt (app.py line 87): unconditionally overwrites the slot. -/
def setPrompt (_s : PromptSlot) (text : String) : PromptSlot := some text

/-- Reading the prompt with a default (app.py line 115, a dictionary get
with a fallback value). The slot is not modified by reading. -/
def getPrompt (s : PromptSlot) (dflt : String) : String := s.getD dflt

/-- A sequence of inbound text messages, each tagged with a sender id,
applied to the shared slot in order, as generate_image does per message. -/
def applyStores (init : PromptSlot) (events : List (Nat × String)) : PromptSlot :=
  events.foldl (fun s e => setPrompt s e.2) init

/-- Outbound effects emitted by the quality-selection handler, in the order
the handler performs them. -/
inductive OutEvent where
  | answerQuery : OutEvent
  | sendText : String → OutEvent
  | sendPhoto : List Nat → String → List String → OutEvent
  | deleteMessage : OutEvent
deriving Repr, DecidableEq

/-- Python str.capitalize: first character upper-cased, the rest lower-cased. -/
def pyCapitalize (s : String) : String :=
  match s.data with
  | [] => ""
  | c :: cs => String.mk (c.toUpper :: cs.map Char.toLower)

/-- Python split on the underscore character, over the character list. -/
def splitUnderscore : List Char → List (List Char)
  | [] => [[]]
  | c :: cs =>
      let r := splitUnderscore cs
      if c = '_' then [] :: r
      else
        match r with
        | [] => [[c]]
        | h :: t => (c :: h) :: t

/-- The tag extraction in quality_callback: element 1 of the callback data
split on underscore (app.py line 114). -/
def extractQuality (data : String) : String :=
  match (splitUnderscore data.data)[1]? with
  | some cs => String.mk cs
  | none => ""

/-- The single quote character, used by the Python repr of a KeyError key. -/
def squote : String := String.mk [Char.ofNat 39]

/-- Python str of a KeyError: the repr of the missing key. -/
def keyErrorMessage (k : String) : String := squote ++ k ++ squote

/-- The error message built in the except branch (app.py lines 153-157). -/
def errorText (msg : String) : String :=
  "❌ Oops! Something went wrong during image generation.\nError: " ++ msg ++
    "\n\nPlease try again with a different prompt."

/-- The transient generating notice (app.py lines 118-120). -/
def loadingText (quality : String) : String :=
  "🔄 Generating " ++ pyCapitalize quality ++ " Quality Image... Please wait!"

/-- The photo caption (app.py line 146). -/
def captionText (quality prompt : String) : String :=
  "🖼️ " ++ pyCapitalize quality ++ " Quality Image\nPrompt: *" ++ prompt ++ "*"

/-- The Twitter share URL (app.py line 136): the prompt is interpolated
verbatim at the end of the pre-encoded boilerplate. -/
def twitterShareUrl (prompt : String) : String :=
  "https://twitter.com/intent/tweet?text=Check%20out%20this%20AI-generated%20image!%20Created%20with%20@AIImageBot%20-%20Prompt:%20"
    ++ prompt

/-- The LinkedIn share URL (app.py line 138): the prompt is interpolated
verbatim at the end of the pre-encoded boilerplate. -/
def linkedinShareUrl (prompt : String) : String :=
  "https://www.linkedin.com/sharing/share-offsite/?url=&text=Check%20out%20this%20AI-generated%20image!%20Created%20with%20AI%20Image%20Generator%20-%20Prompt:%20"
    ++ prompt

/-- The try/except body of quality_callback: look up the preset (a KeyError
escapes to the generic except branch), call the provider and decode the
base64 payload (abstracted as gen, returning the decoded bytes or the
exception text), then send either the photo with its caption and the two
share URLs, or the generic error text. -/
def outcomeEvents (gen : String → QualityPreset → Except String (List Nat))
    (prompt quality : String) : List OutEvent :=
  match quality_params quality with
  | none => [OutEvent.sendText (errorText (keyErrorMessage quality))]
  | some preset =>
      match gen prompt preset with
      | Except.ok imageData =>
          [OutEvent.sendPhoto imageData (captionText quality prompt)
            [twitterShareUrl prompt, linkedinShareUrl prompt]]
      | Except.error msg => [OutEvent.sendText (errorText msg)]

/-- Shallow embedding of quality_callback (app.py lines 106-162, identical
logic in bot.py lines 107-163): answer the query, read the stored prompt
with the default fallback, send the generating notice, run the try/except
body, and finally delete the notice. Returns the ordered outbound events
and the prompt slot as it stands after the handler. -/
def quality_callback (gen : String → QualityPreset → Except String (List Nat))
    (store : PromptSlot) (callbackData : String) : List OutEvent × PromptSlot :=
  let quality := extractQuality callbackData
  let prompt := getPrompt store "A beautiful scene"
  (OutEvent.answerQuery :: OutEvent.sendText (loadingText quality) ::
      (outcomeEvents gen prompt quality ++ [OutEvent.deleteMessage]),
    store)

/-- Shallow embedding of generate_image (app.py lines 82-104): store the
message text in the slot and emit the quality menu. -/
def generate_image (store : PromptSlot) (text : String) : List OutEvent × PromptSlot :=
  ([OutEvent.sendText "Select image quality for your prompt:"], setPrompt store text)

/-- Predicate selecting photo-send events. -/
def isPhotoEvent : OutEvent → Bool
  | OutEvent.sendPhoto _ _ _ => true
  | _ => false

/-- Does sub occur at the head of s. -/
def headMatches : List Char → List Char → Bool
  | [], _ => true
  | _ :: _, [] => false
  | c :: cs, d :: ds => c == d && headMatches cs ds

/-- Does sub occur anywhere inside s. -/
def containsSub (sub : List Char) : List Char → Bool
  | [] => sub.isEmpty
  | d :: rest => headMatches sub (d :: rest) || containsSub sub rest

/-- Substring test on strings: does s contain sub. -/
def strContainsSub (s sub : String) : Bool := containsSub sub.data s.data

/-- Predicate selecting text-send events whose text contains sub. -/
def isTextContaining (sub : String) : OutEvent → Bool
  | OutEvent.sendText t => strContainsSub t sub
  | _ => false

/-- The per-user prompt storage of bot.py: context user_data is keyed by
the user, so each user id owns an independent slot. -/
abbrev UserDataMap := Nat → PromptSlot

/-- Shallow embedding of the prompt store in bot.py generate_image
(line 88): only the slot of the sending user is overwritten. -/
def bot_generate_image (data : UserDataMap) (user : Nat) (text : String) : UserDataMap :=
  fun u => if u = user then setPrompt (data u) text else data u

/-- The prompt read performed by bot.py quality_callback (line 116): the
slot of the pressing user, with the default fallback. -/
def bot_prompt_read (data : UserDataMap) (user : Nat) : String :=
  getPrompt (data user) "A beautiful scene"

/-- Outcome of the bot.py main function: an early logged exit, or a running
application with the given number of registered handlers. -/
inductive MainResult where
  | exitedWithError : String → MainResult
  | running : Nat → MainResult
deriving Repr, DecidableEq

/-- Python truthiness of an optional environment string: absent and empty
are both falsy. -/
def envMissing (v : Option String) : Bool :=
  match v with
  | none => true
  | some s => s.isEmpty

/-- Shallow embedding of main in bot.py (lines 185-207): validate both
credentials, log an error and return before building the application if
either is missing, otherwise register the three handlers and start
polling. -/
def bot_main (telegram_token together_api_key : Option String) : MainResult :=
  if envMissing telegram_token || envMissing together_api_key then
    MainResult.exitedWithError "Missing API credentials. Check your .env file."
  else
    MainResult.running 3

/-- Is the main result a running application with registered handlers. -/
def isRunning : MainResult → Bool
  | MainResult.running _ => true
  | _ => false

/- ---------------------------------------------------------------- -/
/- Theorems -/
/- ---------------------------------------------------------------- -/

/-- Claim C1: resolving each of the three quality tokens yields the preset
with exactly the documented width, height and step count (512x384x20,
768x576x24, 1024x768x28), each with output count n = 1 and base64
response encoding. -/
theorem quality_presets_match_table :
    quality_params "low" = some ⟨"black-forest-labs/FLUX.1-dev", 512, 384, 20, 1, "b64_json"⟩
    ∧ quality_params "mid" = some ⟨"black-forest-labs/FLUX.1-dev", 768, 576, 24, 1, "b64_json"⟩
    ∧ quality_params "high" = some ⟨"black-forest-labs/FLUX.1-dev", 1024, 768, 28, 1, "b64_json"⟩ :=
  ⟨rfl, rfl, rfl⟩

/-- The shared slot after a sequence of stores holds the text of the last
store, or its initial value for the empty sequence. -/
theorem applyStores_eq (init : PromptSlot) (events : List (Nat × String)) :
    applyStores init events = ((events.getLast?).map (fun e => some e.2)).getD init := by
  induction events using List.reverseRecOn with
  | nil => rfl
  | append_singleton es e _ =>
      simp [applyStores, List.foldl_append, setPrompt]

/-- Claim C2: reading the prompt with a default returns the default when no
prompt was ever stored, and otherwise the text of the most recent store,
regardless of which sender performed each store (last-writer-wins over the
single shared slot, for any interleaving of senders). -/
theorem prompt_store_last_writer_wins (events : List (Nat × String)) (dflt : String) :
    getPrompt (applyStores none events) dflt = ((events.getLast?).map Prod.snd).getD dflt := by
  rw [applyStores_eq]
  cases events.getLast? with
  | none => rfl
  | some e => rfl

/-- A pattern occurs at the head of any list that extends it. -/
theorem headMatches_self_append (sub rest : List Char) :
    headMatches sub (sub ++ rest) = true := by
  induction sub with
  | nil => rfl
  | cons c cs ih => simp [headMatches, ih]

/-- The empty pattern occurs in every list. -/
theorem containsSub_nil (l : List Char) : containsSub [] l = true := by
  cases l with
  | nil => rfl
  | cons c cs => simp [containsSub, headMatches]

/-- A pattern occurs in itself followed by anything. -/
theorem containsSub_self_append (sub post : List Char) :
    containsSub sub (sub ++ post) = true := by
  cases sub with
  | nil => exact containsSub_nil post
  | cons c cs =>
      have h := headMatches_self_append (c :: cs) post
      simp only [List.cons_append] at h
      simp [containsSub, h]

/-- A pattern occurs in any list where it appears as a middle component. -/
theorem containsSub_append (sub pre post : List Char) :
    containsSub sub (pre ++ (sub ++ post)) = true := by
  induction pre with
  | nil => simpa using containsSub_self_append sub post
  | cons c cs ih => simp [containsSub, ih]

/-- Occurrence at the head is preserved by extending the list. -/
theorem headMatches_mono (sub s rest : List Char) (h : headMatches sub s = true) :
    headMatches sub (s ++ rest) = true := by
  induction sub generalizing s with
  | nil => rfl
  | cons c cs ih =>
      cases s with
      | nil => simp [headMatches] at h
      | cons d ds =>
          simp only [headMatches, Bool.and_eq_true] at h
          simp [headMatches, h.1, ih ds h.2]

/-- Occurrence of a pattern is preserved by extending the list. -/
theorem containsSub_mono (sub s rest : List Char) (h : containsSub sub s = true) :
    containsSub sub (s ++ rest) = true := by
  induction s with
  | nil =>
      simp [containsSub, List.isEmpty_iff] at h
      subst h
      exact containsSub_nil rest
  | cons d ds ih =>
      simp only [containsSub, Bool.or_eq_true] at h
      rcases h with h | h
      · have := headMatches_mono sub (d :: ds) rest h
        simp only [List.cons_append] at this ⊢
        simp [containsSub, this]
      · simp only [List.cons_append]
        simp [containsSub, ih h]

/-- String concatenation concatenates the character data. -/
theorem sdata_append (a b : String) : (a ++ b).data = a.data ++ b.data := rfl

/-- A string occurs as a substring of any string where it appears as a
middle concatenation component. -/
theorem strContainsSub_append (a sub b : String) :
    strContainsSub (a ++ sub ++ b) sub = true := by
  have h : (a ++ sub ++ b).data = a.data ++ (sub.data ++ b.data) := by
    simp [sdata_append, List.append_assoc]
  simp [strContainsSub, h, containsSub_append]

/-- A string occurs as a substring of any string that ends with it. -/
theorem strContainsSub_append_end (a sub : String) :
    strContainsSub (a ++ sub) sub = true := by
  have h := containsSub_append sub.data a.data []
  simpa [strContainsSub, sdata_append] using h

/-- The caption always contains the prompt verbatim. -/
theorem caption_contains_prompt (quality prompt : String) :
    strContainsSub (captionText quality prompt) prompt = true :=
  strContainsSub_append ("🖼️ " ++ pyCapitalize quality ++ " Quality Image\nPrompt: *") prompt "*"

/-- The caption for the mid tier, with the capitalized tag spelled out. -/
theorem caption_mid_eq (prompt : String) :
    captionText "mid" prompt = "🖼️ Mid Quality Image\nPrompt: *" ++ prompt ++ "*" := rfl

/-- The mid-tier caption always contains the words Mid Quality Image. -/
theorem caption_mid_contains (prompt : String) :
    strContainsSub (captionText "mid" prompt) "Mid Quality Image" = true := by
  rw [caption_mid_eq]
  show containsSub "Mid Quality Image".data
      ((("🖼️ Mid Quality Image\nPrompt: *" ++ prompt) ++ "*").data) = true
  have h0 : containsSub "Mid Quality Image".data "🖼️ Mid Quality Image\nPrompt: *".data = true := by
    decide
  have h1 := containsSub_mono _ _ prompt.data h0
  have h2 := containsSub_mono _ _ "*".data h1
  simpa [sdata_append] using h2

/-- Counterexample to claim C3 as stated: for the stored prompt a red fox
and a provider stub returning fixed bytes, the single emitted photo has the
caption built from the capitalized tag, and that caption does not contain
the literal substring Medium Quality Image. -/
theorem caption_not_medium_quality_cx :
    ((quality_callback (fun _ _ => Except.ok [7]) (some "a red fox") "quality_mid").1.filter
        isPhotoEvent) =
      [OutEvent.sendPhoto [7] (captionText "mid" "a red fox")
        [twitterShareUrl "a red fox", linkedinShareUrl "a red fox"]]
    ∧ strContainsSub (captionText "mid" "a red fox") "Medium Quality Image" = false :=
  ⟨rfl, by decide⟩

/-- Claim C3 (amended): for every stored prompt, with a provider stub
returning fixed bytes, the handler for token quality_mid emits exactly one
photo send, whose caption contains the literal substring Mid Quality Image
(the capitalized tag, not Medium Quality Image) and the original prompt. -/
theorem quality_mid_single_photo_caption (prompt : String) (bytes : List Nat) :
    ((quality_callback (fun _ _ => Except.ok bytes) (some prompt) "quality_mid").1.filter
        isPhotoEvent) =
      [OutEvent.sendPhoto bytes (captionText "mid" prompt)
        [twitterShareUrl prompt, linkedinShareUrl prompt]]
    ∧ strContainsSub (captionText "mid" prompt) "Mid Quality Image" = true
    ∧ strContainsSub (captionText "mid" prompt) prompt = true :=
  ⟨rfl, caption_mid_contains prompt, caption_contains_prompt "mid" prompt⟩

/-- Counterexample to claim C4 as stated: for the prompt a red fox, neither
share URL contains the percent-encoded form a%20red%20fox nor the
plus-encoded form a+red+fox; both contain the raw, unencoded prompt text
with literal spaces. -/
theorem share_urls_not_percent_encoded_cx :
    strContainsSub (twitterShareUrl "a red fox") "a%20red%20fox" = false
    ∧ strContainsSub (linkedinShareUrl "a red fox") "a%20red%20fox" = false
    ∧ strContainsSub (twitterShareUrl "a red fox") "a+red+fox" = false
    ∧ strContainsSub (linkedinShareUrl "a red fox") "a+red+fox" = false
    ∧ strContainsSub (twitterShareUrl "a red fox") "a red fox" = true
    ∧ strContainsSub (linkedinShareUrl "a red fox") "a red fox" = true :=
  ⟨by decide, by decide, by decide, by decide, by decide, by decide⟩

/-- Claim C4 (amended): the prompt is interpolated verbatim, with no
URL-encoding, at the end of both share URLs, so each URL contains the raw
prompt text; only the fixed boilerplate is percent-encoded. -/
theorem share_urls_contain_raw_prompt (prompt : String) :
    strContainsSub (twitterShareUrl prompt) prompt = true
    ∧ strContainsSub (linkedinShareUrl prompt) prompt = true :=
  ⟨strContainsSub_append_end _ prompt, strContainsSub_append_end _ prompt⟩

/-- Claim C5: for every stored prompt and each of the three quality tokens,
when the provider raises a failure with message timeout, the handler emits
exactly one text message containing the substring timeout (the generic
error message) and emits no photo. -/
theorem timeout_single_error_no_photo (prompt tok : String)
    (h : tok = "quality_low" ∨ tok = "quality_mid" ∨ tok = "quality_high") :
    (((quality_callback (fun _ _ => Except.error "timeout") (some prompt) tok).1.filter
        (isTextContaining "timeout")).length = 1)
    ∧ (((quality_callback (fun _ _ => Except.error "timeout") (some prompt) tok).1.filter
        isPhotoEvent).length = 0) := by
  rcases h with h | h | h <;> subst h <;> exact ⟨rfl, rfl⟩

/-- Witness for claim C5 at the token quality_mid and the prompt a red fox. -/
theorem timeout_single_error_no_photo_witness :
    ("quality_mid" = "quality_low" ∨ "quality_mid" = "quality_mid"
      ∨ "quality_mid" = "quality_high")
    ∧ ((((quality_callback (fun _ _ => Except.error "timeout") (some "a red fox")
          "quality_mid").1.filter (isTextContaining "timeout")).length = 1)
      ∧ (((quality_callback (fun _ _ => Except.error "timeout") (some "a red fox")
          "quality_mid").1.filter isPhotoEvent).length = 0)) :=
  ⟨Or.inr (Or.inl rfl),
    timeout_single_error_no_photo "a red fox" "quality_mid" (Or.inr (Or.inl rfl))⟩

/-- Counterexample to claim C6 as stated: for the unknown token
quality_ultra the handler does reach the recovered path: the failed preset
lookup raises a KeyError inside the try block, the generic except branch
catches it, and a plain-text error quoting the unknown tag is sent to the
user. -/
theorem unknown_token_recovered_cx :
    (quality_callback (fun _ _ => Except.ok [7]) (some "a red fox") "quality_ultra").1 =
      [OutEvent.answerQuery,
       OutEvent.sendText (loadingText "ultra"),
       OutEvent.sendText (errorText (keyErrorMessage "ultra")),
       OutEvent.deleteMessage] := rfl

/-- Claim C6 (amended): for every callback token whose extracted tag is not
one of the three presets, the handler has no dedicated validation, but the
KeyError from the preset lookup is caught by the generic exception handler,
so the user does receive the plain-text error, whose description is the
quoted unknown tag. -/
theorem unknown_token_generic_error (gen : String → QualityPreset → Except String (List Nat))
    (store : PromptSlot) (tok : String)
    (h : quality_params (extractQuality tok) = none) :
    (quality_callback gen store tok).1 =
      [OutEvent.answerQuery,
       OutEvent.sendText (loadingText (extractQuality tok)),
       OutEvent.sendText (errorText (keyErrorMessage (extractQuality tok))),
       OutEvent.deleteMessage] := by
  simp [quality_callback, outcomeEvents, h]

/-- Witness for the amended claim C6 at the token quality_ultra. -/
theorem unknown_token_generic_error_witness :
    quality_params (extractQuality "quality_ultra") = none
    ∧ (quality_callback (fun _ _ => Except.ok [0]) none "quality_ultra").1 =
        [OutEvent.answerQuery,
         OutEvent.sendText (loadingText (extractQuality "quality_ultra")),
         OutEvent.sendText (errorText (keyErrorMessage (extractQuality "quality_ultra"))),
         OutEvent.deleteMessage] :=
  ⟨rfl, unknown_token_generic_error (fun _ _ => Except.ok [0]) none "quality_ultra" rfl⟩

/-- Counterexample to claim C7 as stated: after a successful quality
selection consuming the stored prompt a red fox, the slot still holds that
prompt; the dictionary read does not remove it. -/
theorem prompt_slot_retained_cx :
    (quality_callback (fun _ _ => Except.ok [7]) (some "a red fox") "quality_low").2 =
      some "a red fox" := rfl

/-- Claim C7 (amended): for every outcome of the handler, the prompt slot
is left exactly as it was: the prompt is read without being cleared, so
the implicit state does not return to Idle and a repeated button press
would reuse the same prompt. -/
theorem prompt_slot_unchanged (gen : String → QualityPreset → Except String (List Nat))
    (store : PromptSlot) (tok : String) :
    (quality_callback gen store tok).2 = store := rfl

/-- The try/except body always emits exactly one outcome event. -/
theorem outcomeEvents_len (gen : String → QualityPreset → Except String (List Nat))
    (prompt quality : String) : (outcomeEvents gen prompt quality).length = 1 := by
  rcases hq : quality_params quality with _ | p
  · simp [outcomeEvents, hq]
  · rcases hg : gen prompt p with b | m <;> simp [outcomeEvents, hq, hg]

/-- The try/except body never emits a delete event. -/
theorem outcomeEvents_no_delete (gen : String → QualityPreset → Except String (List Nat))
    (prompt quality : String) :
    (outcomeEvents gen prompt quality).contains OutEvent.deleteMessage = false := by
  rcases hq : quality_params quality with _ | p
  · simp [outcomeEvents, hq]
  · rcases hg : gen prompt p with b | m <;> simp [outcomeEvents, hq, hg]

/-- Counterexample to claim C9 as stated: on success the handler sends the
photo first and deletes the generating notice afterwards, as its final
action (the delete lives in a finally clause), not before the outcome. -/
theorem delete_after_photo_cx :
    (quality_callback (fun _ _ => Except.ok [7]) (some "a red fox") "quality_mid").1 =
      [OutEvent.answerQuery,
       OutEvent.sendText (loadingText "mid"),
       OutEvent.sendPhoto [7] (captionText "mid" "a red fox")
         [twitterShareUrl "a red fox", linkedinShareUrl "a red fox"],
       OutEvent.deleteMessage] := rfl

/-- Claim C9 (amended): in every invocation, the generating notice is
deleted after the outcome message, as the last event of the handler: the
trace is the answer, the notice, the single outcome event (photo or error
text, which is never a delete), and then the delete of the notice. -/
theorem delete_notice_last (gen : String → QualityPreset → Except String (List Nat))
    (store : PromptSlot) (tok : String) :
    (quality_callback gen store tok).1 =
      OutEvent.answerQuery :: OutEvent.sendText (loadingText (extractQuality tok)) ::
        (outcomeEvents gen (getPrompt store "A beautiful scene") (extractQuality tok)
          ++ [OutEvent.deleteMessage])
    ∧ (outcomeEvents gen (getPrompt store "A beautiful scene") (extractQuality tok)).length = 1
    ∧ (outcomeEvents gen (getPrompt store "A beautiful scene") (extractQuality tok)).contains
        OutEvent.deleteMessage = false :=
  ⟨rfl, outcomeEvents_len gen _ _, outcomeEvents_no_delete gen _ _⟩

/-- Claim C8: if either startup credential is absent, main in bot.py logs
the missing-credentials error and returns before building the application,
so no handler is ever registered or run. -/
theorem missing_credentials_fail_fast (tok key : Option String)
    (h : tok = none ∨ key = none) :
    bot_main tok key = MainResult.exitedWithError "Missing API credentials. Check your .env file."
    ∧ isRunning (bot_main tok key) = false := by
  rcases h with h | h <;> subst h
  · exact ⟨rfl, rfl⟩
  · refine ⟨?_, ?_⟩ <;> simp [bot_main, envMissing, isRunning]

/-- Witness for claim C8 with the bot token absent and the provider key
present. -/
theorem missing_credentials_fail_fast_witness :
    ((none : Option String) = none ∨ (some "key" : Option String) = none)
    ∧ (bot_main none (some "key") =
        MainResult.exitedWithError "Missing API credentials. Check your .env file."
      ∧ isRunning (bot_main none (some "key")) = false) :=
  ⟨Or.inl rfl, missing_credentials_fail_fast none (some "key") (Or.inl rfl)⟩

/-- Claim C10: in bot.py the prompt slot is keyed per user: a store by one
user never changes what a distinct user reads, while in app.py the shared
slot read always returns the last store regardless of who wrote it. -/
theorem per_user_prompt_isolation (data : UserDataMap) (u v : Nat) (text : String)
    (s : PromptSlot) (h : u ≠ v) :
    bot_prompt_read (bot_generate_image data u text) v = bot_prompt_read data v
    ∧ getPrompt (setPrompt s text) "A beautiful scene" = text := by
  constructor
  · simp only [bot_prompt_read, bot_generate_image]
    rw [if_neg (Ne.symm h)]
  · rfl

/-- Witness for claim C10 with users 0 and 1. -/
theorem per_user_prompt_isolation_witness :
    (0 : Nat) ≠ 1
    ∧ (bot_prompt_read (bot_generate_image (fun _ => none) 0 "a red fox") 1 =
         bot_prompt_read (fun _ => none) 1
      ∧ getPrompt (setPrompt (some "other") "a red fox") "A beautiful scene" = "a red fox") :=
  ⟨by decide, per_user_prompt_isolation (fun _ => none) 0 1 "a red fox" (some "other") (by decide)⟩
